import Mathlib

/-
Verification of the Stock_GRIP two-tier inventory optimization engine.

Shallow embedding of the core components:
  * `InventorySimulator.simulate`            (src/optimization/gp_eims.py)
  * `GPEIMSOptimizer` gating and search loop (src/optimization/gp_eims.py)
  * `MPCController` dynamics and fallback    (src/optimization/mpc_rl_mobo.py)
  * `RLAgent` Q-function and action choice   (src/optimization/mpc_rl_mobo.py)
  * ORM rows and the active-parameters commit (src/data/models.py)

Python floats are modelled as rationals (ℚ); Python ints as ℤ/ℕ.
Outputs of irrational library calls (np.std, np.sqrt, scipy norm.ppf) are
taken as explicit rational parameters where the verified properties do not
depend on their values.
-/

namespace StockGrip

/-- Python `int(x)` applied to a float: truncation toward zero. -/
def pyInt (q : ℚ) : ℤ := if 0 ≤ q then ⌊q⌋ else ⌈q⌉

/-- `np.mean` of a list of rationals (0 on the empty list; callers guard emptiness). -/
def listMean (l : List ℚ) : ℚ := l.sum / (l.length : ℚ)

/-- `np.max` of a list (callers guard emptiness). -/
def listMaxQ (l : List ℚ) : ℚ := l.foldl max (l.headD 0)

/-- `np.min` of a list (callers guard emptiness). -/
def listMinQ (l : List ℚ) : ℚ := l.foldl min (l.headD 0)

/-- Python list slice `l[-n:]`: the last `n` elements. -/
def lastN {α : Type} (n : ℕ) (l : List α) : List α := l.drop (l.length - n)

/-! ## Inventory Simulator (gp_eims.py, `InventorySimulator.simulate`, lines 36-86) -/

/-- Accumulator threaded through the day-by-day replay loop of
`InventorySimulator.simulate`. -/
structure SimAcc where
  stock : ℤ
  holding : ℚ
  stockoutCost : ℚ
  orderCost : ℚ
  events : ℕ
  orders : ℕ
deriving DecidableEq

/-- One day of `InventorySimulator.simulate`: reorder when
`current_stock <= reorder_point`, fulfill `min(daily_demand, current_stock)`,
clamp stock at zero, accrue holding / stockout / order costs. -/
def simStep (unitCost holdRate sp ocFee : ℚ) (rp oq : ℤ) (acc : SimAcc) (d : ℤ) : SimAcc :=
  let reorder := acc.stock ≤ rp
  let stockA : ℤ := if reorder then acc.stock + oq else acc.stock
  let fulfilled : ℤ := min d stockA
  let stockout : ℤ := d - fulfilled
  let stockB : ℤ := max 0 (stockA - fulfilled)
  { stock := stockB
    holding := acc.holding + (stockB : ℚ) * unitCost * holdRate
    stockoutCost := acc.stockoutCost + (if 0 < stockout then (stockout : ℚ) * sp else 0)
    orderCost := acc.orderCost + (if reorder then ocFee else 0)
    events := acc.events + (if 0 < stockout then 1 else 0)
    orders := acc.orders + (if reorder then 1 else 0) }

/-- The dictionary returned by `InventorySimulator.simulate`. -/
structure SimResult where
  total_cost : ℚ
  holding_cost : ℚ
  stockout_cost : ℚ
  order_cost : ℚ
  service_level : ℚ
  stockout_events : ℕ
  total_orders : ℕ
deriving DecidableEq

/-- `InventorySimulator.simulate`: replay the (already date-sorted, sliced)
demand sequence starting from `safety_stock + order_quantity` units on hand.
`holdRate` is the daily holding-cost rate (`holding_cost_rate / 365`). -/
def simulate (unitCost holdRate sp ocFee : ℚ) (rp ss oq : ℤ) (demands : List ℤ) : SimResult :=
  let fin := demands.foldl (simStep unitCost holdRate sp ocFee rp oq) ⟨ss + oq, 0, 0, 0, 0, 0⟩
  { total_cost := fin.holding + fin.stockoutCost + fin.orderCost
    holding_cost := fin.holding
    stockout_cost := fin.stockoutCost
    order_cost := fin.orderCost
    service_level := if demands.length = 0 then 1 else 1 - (fin.events : ℚ) / (demands.length : ℚ)
    stockout_events := fin.events
    total_orders := fin.orders }

/-- Day-level stockout flags of the same replay: `true` on a day whose demand
exceeded the stock on hand after any same-day reorder. -/
def stockoutFlags (rp oq : ℤ) : ℤ → List ℤ → List Bool
  | _, [] => []
  | stock, d :: ds =>
    let stockA : ℤ := if stock ≤ rp then stock + oq else stock
    let fulfilled : ℤ := min d stockA
    decide (0 < d - fulfilled) :: stockoutFlags rp oq (max 0 (stockA - fulfilled)) ds

/-- Quantity fulfilled on each replayed day (the `fulfilled = min(daily_demand,
current_stock)` values of the same replay). -/
def fulfilledPerDay (rp oq : ℤ) : ℤ → List ℤ → List ℤ
  | _, [] => []
  | stock, d :: ds =>
    let stockA : ℤ := if stock ≤ rp then stock + oq else stock
    let fulfilled : ℤ := min d stockA
    fulfilled :: fulfilledPerDay rp oq (max 0 (stockA - fulfilled)) ds

theorem stockoutFlags_length (rp oq : ℤ) :
    ∀ (stock : ℤ) (ds : List ℤ), (stockoutFlags rp oq stock ds).length = ds.length := by
  intro stock ds
  induction ds generalizing stock with
  | nil => rfl
  | cons d ds ih => simp [stockoutFlags, ih]

theorem foldl_simStep_events (u h sp oc : ℚ) (rp oq : ℤ) :
    ∀ (ds : List ℤ) (acc : SimAcc),
      (ds.foldl (simStep u h sp oc rp oq) acc).events
        = acc.events + (stockoutFlags rp oq acc.stock ds).count true := by
  intro ds
  induction ds with
  | nil => intro acc; simp [stockoutFlags]
  | cons d ds ih =>
    intro acc
    rw [List.foldl_cons, ih]
    simp only [stockoutFlags, simStep, List.count_cons]
    rcases lt_or_le 0 (d - min d (if acc.stock ≤ rp then acc.stock + oq else acc.stock)) with hpos | hneg
    · simp [hpos, not_lt.mpr, Nat.add_assoc, Nat.add_comm]
    · simp [not_lt.mpr hneg]

/-! ## Data model rows (src/data/models.py) -/

/-- The `Product` reference record (models.py, class Product); only the fields
consumed by the optimizers are carried. -/
structure Product where
  product_id : String
  unit_cost : ℚ
  lead_time_days : ℕ
  min_order_quantity : ℤ
  max_order_quantity : ℤ
deriving DecidableEq

/-- An `Inventory` table row (models.py lines 31-44). `available_stock` is an
ordinary non-null column: the ORM declares no CHECK constraint, validator or
event hook relating it to `stock_level - reserved_stock` (only a source
comment). -/
structure InventoryRow where
  product_id : String
  stock_level : ℤ
  reserved_stock : ℤ
  in_transit : ℤ
  available_stock : ℤ
deriving DecidableEq

/-- Writing an `Inventory` row: SQLAlchemy's generated constructor assigns the
supplied column values verbatim; nothing validates or clamps them. -/
def writeInventoryRow (pid : String) (stock res intr avail : ℤ) : InventoryRow :=
  ⟨pid, stock, res, intr, avail⟩

/-- A `Demand` table row restricted to the fields that the strategic optimizer
reads (models.py lines 46-59). -/
structure DemandRecord where
  quantity_demanded : ℤ
  is_forecast : Bool
deriving DecidableEq

/-- The policy triple produced by GP-EIMS. -/
structure PolicyParams where
  reorder_point : ℤ
  safety_stock : ℤ
  order_quantity : ℤ
deriving DecidableEq

/-- An `OptimizationParameters` table row (models.py lines 61-80), restricted
to the fields the active-row invariant concerns. -/
structure ParamsRow where
  product_id : String
  reorder_point : ℤ
  safety_stock : ℤ
  order_quantity : ℤ
  is_active : Bool
deriving DecidableEq

/-- Does row `r` count as an active policy row for product `pid`? -/
def isActiveFor (pid : String) (r : ParamsRow) : Bool :=
  r.product_id == pid && r.is_active

/-- Number of active `OptimizationParameters` rows for a product in a
committed database state. -/
def activeCount (db : List ParamsRow) (pid : String) : ℕ :=
  (db.filter (isActiveFor pid)).length

/-- The bulk UPDATE of `GPEIMSOptimizer.optimize_product` (gp_eims.py lines
410-413): every active row of the product is deactivated. -/
def deactivateFor (pid : String) (r : ParamsRow) : ParamsRow :=
  if r.product_id == pid && r.is_active then { r with is_active := false } else r

/-- The single transaction committed at the end of
`GPEIMSOptimizer.optimize_product` (gp_eims.py lines 396-439): deactivate the
previously active rows for the product, then insert the freshly optimized row
with `is_active = True`; one `session.commit()` makes both visible together. -/
def commitOptimization (db : List ParamsRow) (pid : String) (p : PolicyParams) : List ParamsRow :=
  db.map (deactivateFor pid) ++ [⟨pid, p.reorder_point, p.safety_stock, p.order_quantity, true⟩]

theorem isActiveFor_deactivateFor (pid : String) (r : ParamsRow) :
    isActiveFor pid (deactivateFor pid r) = false := by
  unfold deactivateFor isActiveFor
  split
  · simp
  · rename_i hcond
    simpa using hcond

theorem isActiveFor_deactivateFor_ne (pid q : String) (hq : q ≠ pid) (r : ParamsRow) :
    isActiveFor q (deactivateFor pid r) = isActiveFor q r := by
  unfold deactivateFor isActiveFor
  split
  · rename_i hcond
    simp only [Bool.and_eq_true, beq_iff_eq] at hcond
    simp [hcond.1, hq, Ne.symm hq]
  · rfl

theorem activeCount_map_deactivate (db : List ParamsRow) (pid : String) :
    activeCount (db.map (deactivateFor pid)) pid = 0 := by
  induction db with
  | nil => rfl
  | cons r rest ih =>
    simp [activeCount, List.filter, isActiveFor_deactivateFor, ih]

theorem activeCount_map_deactivate_ne (db : List ParamsRow) (pid q : String) (hq : q ≠ pid) :
    activeCount (db.map (deactivateFor pid)) q = activeCount db q := by
  induction db with
  | nil => rfl
  | cons r rest ih =>
    simp only [activeCount, List.map_cons, List.filter,
      isActiveFor_deactivateFor_ne pid q hq r] at ih ⊢
    cases isActiveFor q r <;> simpa using ih

theorem activeCount_append (l1 l2 : List ParamsRow) (q : String) :
    activeCount (l1 ++ l2) q = activeCount l1 q + activeCount l2 q := by
  simp [activeCount, List.filter_append]

/-! ## InventoryState (mpc_rl_mobo.py, `InventoryState.__init__`, lines 30-47) -/

/-- The in-memory tactical state; `available_stock` is computed in
`__init__`, and `recent_demand` keeps only the last 7 days. The derived float
features (`avg_demand`, `demand_volatility`, ...) are recomputed where used. -/
structure InventoryState where
  product_id : String
  current_stock : ℤ
  reserved_stock : ℤ
  in_transit : ℤ
  available_stock : ℤ
  recent_demand : List ℤ
  lead_time : ℕ
deriving DecidableEq

/-- `InventoryState.__init__`: the constructor derives
`available_stock = current_stock - reserved_stock` and truncates
`recent_demand` to its last 7 entries; no independent value is accepted. -/
def mkInventoryState (pid : String) (cur res intr : ℤ) (recent : List ℤ) (lead : ℕ) :
    InventoryState :=
  ⟨pid, cur, res, intr, cur - res, lastN 7 recent, lead⟩

/-! ## Strategic optimizer gate (gp_eims.py, `optimize_product`, lines 231-284) -/

/-- Demand statistics computed at gp_eims.py lines 251-257 (`std_demand` is
irrational in general and feeds nothing downstream of the gate, so it is not
carried). -/
structure DemandStats where
  mean_demand : ℚ
  max_demand : ℚ
  min_demand : ℚ
deriving DecidableEq

/-- Parameter bounds box (`_get_parameter_bounds`, gp_eims.py lines 208-229). -/
structure ParamBounds where
  rpLow : ℤ
  rpHigh : ℤ
  ssLow : ℤ
  ssHigh : ℤ
  oqLow : ℤ
  oqHigh : ℤ
deriving DecidableEq

/-- Python `max(low, min(high, v))`. -/
def clampI (low high v : ℤ) : ℤ := max low (min high v)

/-- Clip a candidate into the bounds box, exactly as gp_eims.py lines 283-284
and 354-355 do component-wise. -/
def clipToBounds (b : ParamBounds) (p : PolicyParams) : PolicyParams :=
  ⟨clampI b.rpLow b.rpHigh p.reorder_point,
   clampI b.ssLow b.ssHigh p.safety_stock,
   clampI b.oqLow b.oqHigh p.order_quantity⟩

/-- `GPEIMSOptimizer._get_parameter_bounds`. -/
def getParameterBounds (prod : Product) (stats : DemandStats) : ParamBounds :=
  { rpLow := pyInt (stats.mean_demand * (prod.lead_time_days : ℚ) * (1 / 2))
    rpHigh := pyInt (stats.max_demand * (prod.lead_time_days : ℚ) * 2)
    ssLow := 0
    ssHigh := pyInt (stats.mean_demand * 30)
    oqLow := prod.min_order_quantity
    oqHigh := min prod.max_order_quantity (pyInt (stats.mean_demand * 60)) }

/-- The three ways the front half of `optimize_product` can resolve: a missing
product raises `ValueError`; fewer than 30 historical records return `None`;
otherwise the optimization loop is entered with the computed statistics,
bounds and clipped initial guess. -/
inductive StrategicOutcome where
  | productNotFound (msg : String)
  | skippedInsufficientHistory
  | attempted (stats : DemandStats) (bounds : ParamBounds) (initialGuess : PolicyParams)
deriving DecidableEq

/-- Discriminator: did the run reach the optimization loop? -/
def StrategicOutcome.isAttempted : StrategicOutcome → Bool
  | .attempted _ _ _ => true
  | _ => false

/-- Front half of `GPEIMSOptimizer.optimize_product` (gp_eims.py lines
236-284): query the product, keep the latest 180 non-forecast demand records,
skip with a null result under 30 records, otherwise compute statistics,
bounds, and the (clipped) initial guess. `records` is given date-descending
as the query orders it; `currentParams` is the active policy row, if any. -/
def optimizeProductGate (productOpt : Option Product) (records : List DemandRecord)
    (currentParams : Option PolicyParams) : StrategicOutcome :=
  match productOpt with
  | none => .productNotFound "Product not found"
  | some prod =>
    let hist := (records.filter (fun r => !r.is_forecast)).take 180
    if hist.length < 30 then .skippedInsufficientHistory
    else
      let vals : List ℚ := hist.map (fun r => (r.quantity_demanded : ℚ))
      let stats : DemandStats := ⟨listMean vals, listMaxQ vals, listMinQ vals⟩
      let bounds := getParameterBounds prod stats
      let ig : PolicyParams :=
        match currentParams with
        | some cp => cp
        | none =>
          ⟨pyInt (stats.mean_demand * (prod.lead_time_days : ℚ) * (3 / 2)),
           pyInt (stats.mean_demand * 7),
           pyInt (stats.mean_demand * 30)⟩
      .attempted stats bounds (clipToBounds bounds ig)

/-! ## Strategic objective and search loop (gp_eims.py lines 180-206, 286-376) -/

/-- The process-wide economic constants of `SIMULATION_CONFIG`
(config/settings.py lines 68-76). -/
structure EconConfig where
  holding_cost_rate : ℚ
  stockout_penalty : ℚ
  order_cost : ℚ
  service_level_target : ℚ
deriving DecidableEq

/-- The shipped `SIMULATION_CONFIG` values. -/
def simulationConfig : EconConfig :=
  { holding_cost_rate := 1 / 4
    stockout_penalty := 10
    order_cost := 50
    service_level_target := 19 / 20 }

/-- `GPEIMSOptimizer._objective_function` (gp_eims.py lines 180-206): clamp
the candidate, run the simulator on the (sorted, sliced) demand replay, and
add the 10000-weighted service-level shortfall penalty. -/
def objectiveFunction (econ : EconConfig) (prod : Product) (demands : List ℤ)
    (p : PolicyParams) : ℚ :=
  let rp : ℤ := max 0 p.reorder_point
  let ss : ℤ := max 0 p.safety_stock
  let oq : ℤ := max prod.min_order_quantity (min prod.max_order_quantity p.order_quantity)
  let res := simulate prod.unit_cost (econ.holding_cost_rate / 365)
    econ.stockout_penalty econ.order_cost rp ss oq demands
  res.total_cost +
    (if res.service_level < econ.service_level_target
     then 10000 * (econ.service_level_target - res.service_level)
     else 0)

/-- One iteration's best-so-far update (gp_eims.py lines 364-367): a freshly
evaluated candidate replaces the incumbent only on strict improvement. -/
def optStep (obj : PolicyParams → ℚ) (acc : PolicyParams × ℚ) (c : PolicyParams) :
    PolicyParams × ℚ :=
  if obj c < acc.2 then (c, obj c) else acc

/-- The Bayesian-optimization loop of `optimize_product` (gp_eims.py lines
282-376) with the surrogate/acquisition machinery abstracted into the
sequence `cands` of integer candidates it proposes (any RNG draw and any
early-stopping truncation yields some such finite list): the initial guess is
clipped into the bounds box and evaluated first, every candidate is clipped
before evaluation, and the best (parameters, objective value) pair is kept. -/
def optimizeRun (obj : PolicyParams → ℚ) (b : ParamBounds) (initGuess : PolicyParams)
    (cands : List PolicyParams) : PolicyParams × ℚ :=
  let i := clipToBounds b initGuess
  (cands.map (clipToBounds b)).foldl (optStep obj) (i, obj i)

theorem clampI_idem (low high v : ℤ) : clampI low high (clampI low high v) = clampI low high v := by
  simp only [clampI, max_def, min_def]
  split_ifs <;> omega

theorem clipToBounds_idem (b : ParamBounds) (p : PolicyParams) :
    clipToBounds b (clipToBounds b p) = clipToBounds b p := by
  simp [clipToBounds, clampI_idem]

theorem foldl_optStep_snd_le (obj : PolicyParams → ℚ) :
    ∀ (l : List PolicyParams) (acc : PolicyParams × ℚ),
      (l.foldl (optStep obj) acc).2 ≤ acc.2 := by
  intro l
  induction l with
  | nil => intro acc; exact le_refl _
  | cons c cs ih =>
    intro acc
    refine le_trans (ih (optStep obj acc c)) ?_
    unfold optStep
    split
    · exact le_of_lt (by assumption)
    · exact le_refl _

theorem foldl_optStep_snd_eq (obj : PolicyParams → ℚ) :
    ∀ (l : List PolicyParams) (acc : PolicyParams × ℚ), acc.2 = obj acc.1 →
      (l.foldl (optStep obj) acc).2 = obj (l.foldl (optStep obj) acc).1 := by
  intro l
  induction l with
  | nil => intro acc h; exact h
  | cons c cs ih =>
    intro acc h
    refine ih (optStep obj acc c) ?_
    unfold optStep
    split
    · rfl
    · exact h

theorem foldl_optStep_fst_clipped (obj : PolicyParams → ℚ) (b : ParamBounds) :
    ∀ (l : List PolicyParams) (acc : PolicyParams × ℚ),
      (∀ x ∈ l, clipToBounds b x = x) → clipToBounds b acc.1 = acc.1 →
      clipToBounds b (l.foldl (optStep obj) acc).1 = (l.foldl (optStep obj) acc).1 := by
  intro l
  induction l with
  | nil => intro acc _ hacc; exact hacc
  | cons c cs ih =>
    intro acc hl hacc
    refine ih (optStep obj acc c) (fun x hx => hl x (List.mem_cons_of_mem _ hx)) ?_
    unfold optStep
    split
    · exact hl c (List.mem_cons_self _ _)
    · exact hacc

theorem optimizeRun_fst_clipped (obj : PolicyParams → ℚ) (b : ParamBounds)
    (initGuess : PolicyParams) (cands : List PolicyParams) :
    clipToBounds b (optimizeRun obj b initGuess cands).1 = (optimizeRun obj b initGuess cands).1 := by
  unfold optimizeRun
  refine foldl_optStep_fst_clipped obj b _ _ ?_ (clipToBounds_idem b initGuess)
  intro x hx
  rcases List.mem_map.mp hx with ⟨y, _, rfl⟩
  exact clipToBounds_idem b y

theorem optimizeRun_snd_eq (obj : PolicyParams → ℚ) (b : ParamBounds)
    (initGuess : PolicyParams) (cands : List PolicyParams) :
    (optimizeRun obj b initGuess cands).2 = obj (optimizeRun obj b initGuess cands).1 := by
  unfold optimizeRun
  exact foldl_optStep_snd_eq obj _ _ rfl

theorem optimizeRun_snd_le_init (obj : PolicyParams → ℚ) (b : ParamBounds)
    (initGuess : PolicyParams) (cands : List PolicyParams) :
    (optimizeRun obj b initGuess cands).2 ≤ obj (clipToBounds b initGuess) := by
  unfold optimizeRun
  exact foldl_optStep_snd_le obj _ _

/-! ## Tactical controller: demand forecast and MPC (mpc_rl_mobo.py lines 65-298) -/

/-- `MPCController.predict_demand` (mpc_rl_mobo.py lines 74-99).
`todayWeekday` is `datetime.now().weekday()` (0 = Monday), so day `i` of the
horizon has weekday `(todayWeekday + i) % 7`. -/
def predictDemand (todayWeekday : ℕ) (hist : List ℤ) (horizon : ℕ) : List ℚ :=
  if hist.length < 3 then
    List.replicate horizon
      (max 1 (if hist.isEmpty then 10 else listMean (hist.map (fun d => (d : ℚ)))))
  else
    let recent := lastN 14 hist
    let trend : ℚ :=
      if 7 < recent.length then
        listMean ((lastN 7 recent).map (fun d => (d : ℚ)))
          - listMean ((recent.take (recent.length - 7)).map (fun d => (d : ℚ)))
      else 0
    let base := listMean ((lastN 7 hist).map (fun d => (d : ℚ)))
    (List.range horizon).map (fun i =>
      let dow := (todayWeekday + i) % 7
      let sf : ℚ := if 5 ≤ dow then 6 / 5 else 9 / 10
      max 0 (base + trend * (i : ℚ) * sf))

/-- The order-arrival term the code puts into the inventory balance, shared
verbatim by the solver constraints (mpc_rl_mobo.py line 134:
`order_quantities[t] if t >= product.lead_time_days else 0`, inside the
`t < control_horizon` branch) and by the fallback trajectory (line 271:
`order_quantities[t] if t < self.control_horizon and t >= product.lead_time_days else 0`). -/
def codeOrderArrival (leadTime controlHorizon : ℕ) (orders : List ℚ) (t : ℕ) : ℚ :=
  if t < controlHorizon ∧ leadTime ≤ t then orders.getD t 0 else 0

/-- Modelled from the spec: the arrival term the specification describes
("an order placed at time t arrives at t+lead_time"), i.e. period `t`
receives the order placed `lead_time` periods earlier, when that placement
lies inside the control horizon. Stated only for comparison with
`codeOrderArrival`. -/
def specOrderArrival (leadTime controlHorizon : ℕ) (orders : List ℚ) (t : ℕ) : ℚ :=
  if leadTime ≤ t ∧ t - leadTime < controlHorizon then orders.getD (t - leadTime) 0 else 0

/-- The order-decision loop of `_solve_mpc_fallback` (mpc_rl_mobo.py lines
243-263), producing `np.zeros(control_horizon)` overwritten index by index;
`fuel` counts the remaining loop iterations and `t` the current index.
(Python would raise IndexError on `d[t]` past the forecast's length; the
forecast always has `prediction_horizon ≥ control_horizon` entries in every
instantiation, where `List.getD` agrees with it.) -/
def fallbackOrdersGo (rp tgtAdd minq maxq : ℚ) (d : List ℚ) : ℕ → ℚ → ℕ → List ℚ
  | _, _, 0 => []
  | t, cur, fuel + 1 =>
    let dt := d.getD t 0
    let proj := cur - dt
    let q : ℚ :=
      if proj ≤ rp then
        let q0 := max 0 (rp + tgtAdd - proj)
        if 0 < q0 then min maxq (max minq q0) else q0
      else 0
    q :: fallbackOrdersGo rp tgtAdd minq maxq d (t + 1) (max 0 (cur + q - dt)) fuel

/-- The projection loop of `_solve_mpc_fallback` (mpc_rl_mobo.py lines
265-276): from the current inventory, apply the code's arrival term, subtract
the forecast, and fold any negative excursion into the stockout slack. The
first component is `inventory_levels[1:]`, the second `stockouts`. -/
def fallbackTrajGo (L M : ℕ) (orders d : List ℚ) : ℕ → ℚ → ℕ → List ℚ × List ℚ
  | _, _, 0 => ([], [])
  | t, cur, fuel + 1 =>
    let raw := cur + codeOrderArrival L M orders t - d.getD t 0
    let inv1 : ℚ := if raw < 0 then 0 else raw
    let s1 : ℚ := if raw < 0 then -raw else 0
    let r := fallbackTrajGo L M orders d (t + 1) inv1 fuel
    (inv1 :: r.1, s1 :: r.2)

/-- The result dictionary returned by `MPCController.solve_mpc` and
`_solve_mpc_fallback`. -/
structure MPCResult where
  status : String
  order_quantities : List ℚ
  predicted_inventory : List ℚ
  predicted_stockouts : List ℚ
  demand_forecast : List ℚ
  total_cost : ℚ
  service_level : ℚ
  message : String
deriving DecidableEq

/-- `MPCController._solve_mpc_fallback` (mpc_rl_mobo.py lines 211-298).
`N`/`M` are the prediction and control horizons; `holdingCostRate`,
`stockoutPenalty`, `orderCost` come from `SIMULATION_CONFIG`; `zScore`
stands for `scipy.stats.norm.ppf(service_level_target)` (or the hard-coded
table on ImportError), `sqrtLead` for `np.sqrt(lead_time_days)`, and
`stdParam` for `np.std(recent_demand)` — all irrational in general, and the
verified properties hold for every value. -/
def solveMpcFallback (N M : ℕ) (holdingCostRate stockoutPenalty orderCost : ℚ)
    (prod : Product) (st : InventoryState) (todayWeekday : ℕ)
    (zScore sqrtLead stdParam : ℚ) : MPCResult :=
  let d := predictDemand todayWeekday st.recent_demand N
  let avg : ℚ :=
    if st.recent_demand.isEmpty then 1
    else listMean (st.recent_demand.map (fun x => (x : ℚ)))
  let dstd : ℚ := if 1 < st.recent_demand.length then stdParam else avg * (3 / 10)
  let safetyStockLvl := zScore * dstd * sqrtLead
  let rp := avg * (prod.lead_time_days : ℚ) + safetyStockLvl
  let orders := fallbackOrdersGo rp (avg * 7) (prod.min_order_quantity : ℚ)
    (prod.max_order_quantity : ℚ) d 0 (st.available_stock : ℚ) M
  let traj := fallbackTrajGo prod.lead_time_days M orders d 0 (st.available_stock : ℚ) N
  let h := prod.unit_cost * holdingCostRate / 365
  { status := "heuristic_fallback"
    order_quantities := orders
    predicted_inventory := (st.available_stock : ℚ) :: traj.1
    predicted_stockouts := traj.2
    demand_forecast := d
    total_cost := traj.1.sum * h + traj.2.sum * stockoutPenalty
      + ((orders.countP (fun q => decide (0 < q)) : ℕ) : ℚ) * orderCost
    service_level := 1 - traj.2.sum / max d.sum 1
    message := "Using heuristic fallback (cvxpy not available)" }

/-- What `MPCController.solve_mpc` does at its entry (mpc_rl_mobo.py lines
107-109): with cvxpy importable it builds and solves the convex program
(not evaluable here), otherwise it returns the heuristic fallback. -/
inductive MPCOutcome where
  | solverPath
  | computed (r : MPCResult)
deriving DecidableEq

/-- The availability dispatch of `MPCController.solve_mpc`. -/
def solveMpc (cvxpyAvailable : Bool) (N M : ℕ)
    (holdingCostRate stockoutPenalty orderCost : ℚ) (prod : Product)
    (st : InventoryState) (todayWeekday : ℕ) (zScore sqrtLead stdParam : ℚ) : MPCOutcome :=
  if cvxpyAvailable then .solverPath
  else .computed (solveMpcFallback N M holdingCostRate stockoutPenalty orderCost
    prod st todayWeekday zScore sqrtLead stdParam)

/-- The constraint set of the convex program built by `solve_mpc`
(mpc_rl_mobo.py lines 124-163), over a prediction horizon `N`, control
horizon `M`, lead time `L`, warehouse capacity `cap` and order cap `maxOrd`:
initial inventory, the code's inventory balance, non-negative inventory,
stockout slack lower bounds and non-negativity, order bounds and integrality,
and the warehouse-capacity ceiling — which line 162 imposes for
`t in range(prediction_horizon)` only, i.e. on the first `N` of the `N+1`
trajectory entries. Any assignment the solver returns with status
`"optimal"` satisfies exactly these constraints. -/
def mpcConstraints (N M L : ℕ) (cap maxOrd initInv : ℚ)
    (d inv s orders : List ℚ) : Prop :=
  inv.length = N + 1 ∧ s.length = N ∧ orders.length = M ∧
  inv.getD 0 0 = initInv ∧
  (∀ t, t < N →
    inv.getD (t + 1) 0
      = inv.getD t 0 + codeOrderArrival L M orders t - d.getD t 0 + s.getD t 0) ∧
  (∀ t, t < N → 0 ≤ inv.getD (t + 1) 0) ∧
  (∀ t, t < N → d.getD t 0 - inv.getD t 0 ≤ s.getD t 0) ∧
  (∀ t, t < N → 0 ≤ s.getD t 0) ∧
  (∀ t, t < M → 0 ≤ orders.getD t 0 ∧ orders.getD t 0 ≤ maxOrd ∧ (orders.getD t 0).den = 1) ∧
  (∀ t, t < N → inv.getD t 0 ≤ cap)

theorem fallbackOrdersGo_length (rp tgtAdd minq maxq : ℚ) (d : List ℚ) :
    ∀ (t : ℕ) (cur : ℚ) (fuel : ℕ), (fallbackOrdersGo rp tgtAdd minq maxq d t cur fuel).length = fuel := by
  intro t cur fuel
  induction fuel generalizing t cur with
  | zero => rfl
  | succ n ih => simp [fallbackOrdersGo, ih]

theorem fallbackTrajGo_length_fst (L M : ℕ) (orders d : List ℚ) :
    ∀ (t : ℕ) (cur : ℚ) (fuel : ℕ), (fallbackTrajGo L M orders d t cur fuel).1.length = fuel := by
  intro t cur fuel
  induction fuel generalizing t cur with
  | zero => rfl
  | succ n ih => simp [fallbackTrajGo, ih]

theorem fallbackTrajGo_length_snd (L M : ℕ) (orders d : List ℚ) :
    ∀ (t : ℕ) (cur : ℚ) (fuel : ℕ), (fallbackTrajGo L M orders d t cur fuel).2.length = fuel := by
  intro t cur fuel
  induction fuel generalizing t cur with
  | zero => rfl
  | succ n ih => simp [fallbackTrajGo, ih]

/-! ## RL agent (mpc_rl_mobo.py, `RLAgent`, lines 301-351) -/

/-- The learned state of an `RLAgent`: the fitted `StandardScaler` (its
per-feature mean and scale), the linear weight column `q_weights[:, 0]`, and
whether the scaler has been fitted yet. -/
structure RLAgentState where
  isFitted : Bool
  scalerMean : List ℚ
  scalerScale : List ℚ
  qWeights : List ℚ
deriving DecidableEq

/-- `StandardScaler.transform` on one sample: `(x - mean_) / scale_`. -/
def scalerTransform (mean scale x : List ℚ) : List ℚ :=
  List.zipWith (fun v s => v / s) (List.zipWith (fun v m => v - m) x mean) scale

/-- Dot product used by the linear Q-function. -/
def dotQ (a b : List ℚ) : ℚ := (List.zipWith (fun x y => x * y) a b).sum

/-- `RLAgent.get_q_value` (mpc_rl_mobo.py lines 325-331): zero before the
scaler is fitted, otherwise `np.dot(state_normalized, q_weights[:, 0])`.
The `action_idx` argument is accepted but never read. -/
def RLAgentState.getQValue (ag : RLAgentState) (state : List ℚ) (actionIdx : ℕ) : ℚ :=
  if ag.isFitted = false then 0
  else dotQ (scalerTransform ag.scalerMean ag.scalerScale state) ag.qWeights

/-- The fixed multiplier grid `self.action_space = np.array([0, 0.5, 1.0, 1.5, 2.0])`. -/
def actionSpace : List ℚ := [0, 1 / 2, 1, 3 / 2, 2]

/-- Tail of `np.argmax`: scan remaining entries, replacing the incumbent only
on a strictly greater value (so ties keep the earliest index). -/
def npArgmaxGo : List ℚ → ℕ → ℕ → ℚ → ℕ
  | [], _, bi, _ => bi
  | x :: xs, i, bi, bv =>
    if bv < x then npArgmaxGo xs (i + 1) i x else npArgmaxGo xs (i + 1) bi bv

/-- `np.argmax` over a vector of Q-values: index of the first maximum
(0 on an empty vector). -/
def npArgmax : List ℚ → ℕ
  | [] => 0
  | x :: xs => npArgmaxGo xs 1 0 x

/-- `RLAgent.select_action` (mpc_rl_mobo.py lines 333-351). `exploring`
stands for the evaluated guard `exploration and np.random.random() <
self.epsilon`, and `randIdx` for the `np.random.randint(len(action_space))`
draw; the greedy branch takes `np.argmax` of the Q-values of all actions.
Returns the action index and `int(base_order_quantity * multiplier)`. -/
def RLAgentState.selectAction (ag : RLAgentState) (state : List ℚ)
    (baseOrderQuantity : ℤ) (exploring : Bool) (randIdx : ℕ) : ℕ × ℤ :=
  let idx :=
    if exploring then randIdx
    else npArgmax ((List.range actionSpace.length).map (fun i => ag.getQValue state i))
  let mult := actionSpace.getD idx 0
  (idx, pyInt ((baseOrderQuantity : ℚ) * mult))

/-! ## Replenishment decision (mpc_rl_mobo.py, `MPCRLMOBOController`, lines 477-544) -/

/-- An `InventoryActions` row as `make_replenishment_decision` creates it
(mpc_rl_mobo.py lines 519-528), restricted to the decision-relevant fields. -/
structure InventoryAction where
  product_id : String
  action_type : String
  quantity : ℤ
  cost : ℚ
deriving DecidableEq

/-- The back half of `make_replenishment_decision` (mpc_rl_mobo.py lines
499-544), given the MPC result: any status other than `"optimal"` yields
`None`; otherwise the RL agent scales the first-period order and an action
row is created only for a positive final quantity. `stateVec` is
`state.to_vector()` (whose volatility entry is irrational in general). -/
def decideFromMpcResult (r : MPCResult) (prod : Product) (orderCost : ℚ)
    (ag : RLAgentState) (stateVec : List ℚ) (exploring : Bool) (randIdx : ℕ) :
    Option InventoryAction :=
  if r.status ≠ "optimal" then none
  else
    let base := pyInt (r.order_quantities.getD 0 0)
    let sel := ag.selectAction stateVec base exploring randIdx
    if 0 < sel.2 then
      some ⟨prod.product_id, "order", sel.2, (sel.2 : ℚ) * prod.unit_cost + orderCost⟩
    else none

/-- `MPCRLMOBOController.make_replenishment_decision` (mpc_rl_mobo.py lines
477-544): missing state, product or active strategic parameters yield `None`;
otherwise the MPC dispatch runs and `decideFromMpcResult` finishes.
`solverResult` stands for whatever the unmodelled cvxpy path would return and
is consulted only when `cvxpyAvailable` is true. -/
def makeReplenishmentDecision (cvxpyAvailable : Bool) (stateOpt : Option InventoryState)
    (productOpt : Option Product) (strategicOpt : Option ParamsRow)
    (N M : ℕ) (holdingCostRate stockoutPenalty orderCost : ℚ) (todayWeekday : ℕ)
    (zScore sqrtLead stdParam : ℚ) (solverResult : MPCResult)
    (ag : RLAgentState) (stateVec : List ℚ) (exploring : Bool) (randIdx : ℕ) :
    Option InventoryAction :=
  match stateOpt with
  | none => none
  | some st =>
    match productOpt, strategicOpt with
    | some prod, some _ =>
      let outcome := solveMpc cvxpyAvailable N M holdingCostRate stockoutPenalty orderCost
        prod st todayWeekday zScore sqrtLead stdParam
      match outcome with
      | .solverPath => decideFromMpcResult solverResult prod orderCost ag stateVec exploring randIdx
      | .computed r => decideFromMpcResult r prod orderCost ag stateVec exploring randIdx
    | _, _ => none

/-! ## Concrete inputs used by the witnesses -/

/-- A pre-existing active policy row for product "A". -/
def rowA : ParamsRow := ⟨"A", 1, 2, 3, true⟩

/-- A small reference product. -/
def prodW : Product := ⟨"P1", 5, 3, 1, 1000⟩

/-- Exactly 29 historical (non-forecast) demand records. -/
def recs29 : List DemandRecord := List.replicate 29 ⟨5, false⟩

/-- Exactly 30 historical (non-forecast) demand records. -/
def recs30 : List DemandRecord := List.replicate 30 ⟨5, false⟩

/-! ## Claim theorems -/

/-- C1: for every product, at most one `OptimizationParameters` row is active
at any committed observation point: the single transaction committed by
`optimize_product` deactivates the product's previously active rows and
inserts the new active row together, so the optimized product ends with
exactly one active row, every other product's active rows are untouched, and
the at-most-one-active invariant is preserved. -/
theorem C1_theorem (db : List ParamsRow) (pid : String) (p : PolicyParams)
    (hinv : ∀ q, activeCount db q ≤ 1) :
    activeCount (commitOptimization db pid p) pid = 1 ∧
    (∀ q, q ≠ pid → activeCount (commitOptimization db pid p) q = activeCount db q) ∧
    (∀ q, activeCount (commitOptimization db pid p) q ≤ 1) := by
  have hnew_pid :
      activeCount [(⟨pid, p.reorder_point, p.safety_stock, p.order_quantity, true⟩ : ParamsRow)] pid
        = 1 := by
    simp [activeCount, List.filter, isActiveFor]
  have hnew_ne : ∀ q, q ≠ pid →
      activeCount [(⟨pid, p.reorder_point, p.safety_stock, p.order_quantity, true⟩ : ParamsRow)] q
        = 0 := by
    intro q hq
    have hbeq : (pid == q) = false := by simp [Ne.symm hq]
    simp [activeCount, List.filter, isActiveFor, hbeq]
  have hmain : activeCount (commitOptimization db pid p) pid = 1 := by
    rw [commitOptimization, activeCount_append, activeCount_map_deactivate, hnew_pid]
  have hother : ∀ q, q ≠ pid →
      activeCount (commitOptimization db pid p) q = activeCount db q := by
    intro q hq
    rw [commitOptimization, activeCount_append, activeCount_map_deactivate_ne db pid q hq,
      hnew_ne q hq, Nat.add_zero]
  refine ⟨hmain, hother, ?_⟩
  intro q
  by_cases hq : q = pid
  · subst hq; exact le_of_eq hmain
  · rw [hother q hq]; exact hinv q

/-- C1 witness: committing an optimization for product `"A"` over a database
that already holds one active `"A"` row leaves exactly one active `"A"` row. -/
theorem C1_witness :
    activeCount (commitOptimization [rowA] "A" ⟨7, 8, 9⟩) "A" = 1 :=
  (C1_theorem [rowA] "A" ⟨7, 8, 9⟩
    (fun q => le_trans (List.length_filter_le _ _) (by simp))).1

/-- C3 counterexample: `InventorySimulator.simulate` does not return the
fraction of demand fulfilled. With reorder_point 0, safety_stock 15,
order_quantity 0 and demand [10, 10], the replay fulfills 15 of 20 demanded
units (fraction 3/4), but the returned service level is 1/2 (one of the two
days had a stockout event). -/
theorem C3_counterexample :
    (simulate 1 (1 / 1460) 10 50 0 15 0 [10, 10]).service_level
      ≠ (((fulfilledPerDay 0 0 15 [10, 10]).sum : ℚ) / (([10, 10] : List ℤ).sum : ℚ)) ∧
    (simulate 1 (1 / 1460) 10 50 0 15 0 [10, 10]).service_level = 1 / 2 ∧
    (((fulfilledPerDay 0 0 15 [10, 10]).sum : ℚ) / (([10, 10] : List ℤ).sum : ℚ)) = 3 / 4 := by
  refine ⟨?_, ?_, ?_⟩ <;>
    norm_num [simulate, simStep, fulfilledPerDay, List.foldl]

/-- C3 (amended): for every policy and non-empty demand sequence, the service
level returned by `InventorySimulator.simulate` is the fraction of replayed
days on which demand was fully fulfilled (it is an event-frequency measure,
not the fulfilled-quantity fraction the original claim stated). -/
theorem C3_theorem (u h sp oc : ℚ) (rp ss oq : ℤ) (demands : List ℤ)
    (hne : demands ≠ []) :
    (simulate u h sp oc rp ss oq demands).service_level
      = (((stockoutFlags rp oq (ss + oq) demands).count false : ℚ)) / (demands.length : ℚ) := by
  have hlen : demands.length ≠ 0 := fun hc => hne (List.length_eq_zero.mp hc)
  have hflags := stockoutFlags_length rp oq (ss + oq) demands
  have hev := foldl_simStep_events u h sp oc rp oq demands ⟨ss + oq, 0, 0, 0, 0, 0⟩
  have hcount_le : (stockoutFlags rp oq (ss + oq) demands).count true
      ≤ demands.length := by
    rw [← hflags]; exact List.count_le_length _ _
  have hfalse : (stockoutFlags rp oq (ss + oq) demands).count false
      = demands.length - (stockoutFlags rp oq (ss + oq) demands).count true := by
    have := List.count_true_add_count_false (stockoutFlags rp oq (ss + oq) demands)
    omega
  simp only [simulate, hlen, if_neg hlen, hev]
  rw [hfalse]
  have hlenQ : ((demands.length : ℚ)) ≠ 0 := by
    exact_mod_cast hlen
  rw [Nat.cast_sub hcount_le]
  field_simp

/-- C3 witness: on the single-day demand [3] with 5 units on hand the
theorem evaluates: service level 1 equals the fraction 1/1 of
fully-fulfilled days. -/
theorem C3_witness :
    (simulate 1 (1 / 1460) 10 50 0 5 0 [3]).service_level
      = (((stockoutFlags 0 0 5 [3]).count false : ℚ)) / (([3] : List ℤ).length : ℚ) :=
  C3_theorem 1 (1 / 1460) 10 50 0 5 0 [3] (by decide)

/-- C2: the inventory-balance dynamics (identical in the solver constraints,
mpc_rl_mobo.py line 134, and the fallback projection, line 271) do NOT model
an order placed at time t as arriving at t+lead_time. With lead_time_days=1,
control_horizon=3 and order_quantities=[5,0,0]: the claimed dynamics deliver
the 5 units placed at t=0 during step t=1, but the code's arrival term adds
`order_quantities[t]` (the order placed at t itself) at step t when
`lead_time ≤ t < control_horizon`, so it delivers 0 at t=1 and the 5 units
never arrive anywhere in the horizon — the zero-demand fallback trajectory
from empty stock stays at 0 for all 7 steps. -/
theorem C2_theorem :
    codeOrderArrival 1 3 [5, 0, 0] 1 = 0 ∧
    specOrderArrival 1 3 [5, 0, 0] 1 = 5 ∧
    (∀ t, t < 7 → codeOrderArrival 1 3 [5, 0, 0] t = 0) ∧
    ((List.range 7).map (specOrderArrival 1 3 [5, 0, 0])).sum = 5 ∧
    (fallbackTrajGo 1 3 [5, 0, 0] [0, 0, 0, 0, 0, 0, 0] 0 0 7).1
      = [0, 0, 0, 0, 0, 0, 0] := by
  refine ⟨by norm_num [codeOrderArrival], by norm_num [specOrderArrival], ?_, ?_, ?_⟩
  · intro t ht
    interval_cases t <;> norm_num [codeOrderArrival]
  · norm_num [specOrderArrival, List.range_succ]
  · norm_num [fallbackTrajGo, codeOrderArrival]

/-- C4: `GPEIMSOptimizer.optimize_product` skips products with insufficient
history without raising: for an existing product, 29 or fewer historical
non-forecast demand records resolve to the null-result branch (`return
None`), and 30 or more reach the optimization loop. -/
theorem C4_theorem (prod : Product) (records : List DemandRecord) (cp : Option PolicyParams) :
    ((records.filter (fun r => !r.is_forecast)).length ≤ 29 →
      optimizeProductGate (some prod) records cp = .skippedInsufficientHistory) ∧
    (30 ≤ (records.filter (fun r => !r.is_forecast)).length →
      (optimizeProductGate (some prod) records cp).isAttempted = true) := by
  constructor
  · intro hle
    have hlt : ((records.filter (fun r => !r.is_forecast)).take 180).length < 30 := by
      rw [List.length_take]; omega
    simp only [optimizeProductGate, if_pos hlt]
  · intro hge
    have hlt : ¬ ((records.filter (fun r => !r.is_forecast)).take 180).length < 30 := by
      rw [List.length_take]; omega
    simp only [optimizeProductGate, if_neg hlt, StrategicOutcome.isAttempted]

/-- C4 witness: with exactly 29 non-forecast records the gate returns the
null result; with exactly 30 it reaches the optimization loop. -/
theorem C4_witness :
    optimizeProductGate (some prodW) recs29 none = .skippedInsufficientHistory ∧
    (optimizeProductGate (some prodW) recs30 none).isAttempted = true :=
  ⟨(C4_theorem prodW recs29 none).1 (by decide),
   (C4_theorem prodW recs30 none).2 (by decide)⟩

/-- C5: when cvxpy is unavailable, `solve_mpc` returns exactly the heuristic
fallback, whose result has an order-quantity vector of length
control_horizon, a predicted inventory trajectory of length
prediction_horizon + 1, a predicted-stockouts vector of length
prediction_horizon, and status "heuristic_fallback" — never "optimal". -/
theorem C5_theorem (N M : ℕ) (hr sp oc : ℚ) (prod : Product) (st : InventoryState)
    (wk : ℕ) (z sq sd : ℚ) :
    solveMpc false N M hr sp oc prod st wk z sq sd
      = .computed (solveMpcFallback N M hr sp oc prod st wk z sq sd) ∧
    (solveMpcFallback N M hr sp oc prod st wk z sq sd).order_quantities.length = M ∧
    (solveMpcFallback N M hr sp oc prod st wk z sq sd).predicted_inventory.length = N + 1 ∧
    (solveMpcFallback N M hr sp oc prod st wk z sq sd).predicted_stockouts.length = N ∧
    (solveMpcFallback N M hr sp oc prod st wk z sq sd).status = "heuristic_fallback" ∧
    (solveMpcFallback N M hr sp oc prod st wk z sq sd).status ≠ "optimal" := by
  refine ⟨rfl, ?_, ?_, ?_, rfl, by simp [solveMpcFallback]⟩
  · simp [solveMpcFallback, fallbackOrdersGo_length]
  · simp [solveMpcFallback, fallbackTrajGo_length_fst]
  · simp [solveMpcFallback, fallbackTrajGo_length_snd]

theorem predictDemand_const10 :
    predictDemand 0 [10, 10, 10, 10, 10, 10, 10] 7
      = [10, 10, 10, 10, 10, 10, 10] := by
  norm_num [predictDemand, lastN, listMean, List.range_succ]

/-- C6 counterexample: the warehouse-capacity constraint is not imposed on
the whole returned trajectory. With prediction horizon 7, control horizon 3,
lead time 2, capacity 100000, order cap 10000, initial inventory 100 and the
forecast the code computes from a constant demand history of 10/day, the
assignment below satisfies every constraint `solve_mpc` hands the solver
(so the solver may return it with status "optimal"), yet its final
trajectory entry is 100030 > 100000: line 162 constrains
`inventory_levels[t]` only for `t in range(prediction_horizon)`, leaving the
last of the prediction_horizon+1 entries unconstrained. -/
theorem C6_counterexample :
    mpcConstraints 7 3 2 100000 10000 100
      (predictDemand 0 [10, 10, 10, 10, 10, 10, 10] 7)
      [100, 90, 80, 70, 60, 50, 40, 100030]
      [0, 0, 0, 0, 0, 0, 100000]
      [0, 0, 0] ∧
    ¬ (∀ i, i < 7 + 1 →
        ([100, 90, 80, 70, 60, 50, 40, 100030] : List ℚ).getD i 0 ≤ 100000) := by
  rw [predictDemand_const10]
  constructor
  · refine ⟨by norm_num, by norm_num, by norm_num, by norm_num [List.getD], ?_, ?_, ?_, ?_, ?_, ?_⟩ <;>
      (intro t ht; interval_cases t <;> norm_num [codeOrderArrival, List.getD])
  · intro hall
    have h7 := hall 7 (by omega)
    norm_num [List.getD] at h7

/-- C6 (amended): the Tactical Controller's capacity guarantee holds only for
the first prediction_horizon entries of the (prediction_horizon+1)-length
trajectory — every assignment satisfying the solver's constraint set keeps
`inventory_levels[t] ≤ warehouse_capacity` for `t < prediction_horizon`,
while the final entry is unconstrained (see the counterexample) — and the
fallback path never carries the "optimal" status, so its unconstrained
projection is always explicitly flagged non-optimal. -/
theorem C6_theorem :
    (∀ (N M L : ℕ) (cap maxOrd initInv : ℚ) (d inv s orders : List ℚ),
      mpcConstraints N M L cap maxOrd initInv d inv s orders →
      ∀ t, t < N → inv.getD t 0 ≤ cap) ∧
    (∀ (N M : ℕ) (hr sp oc : ℚ) (prod : Product) (st : InventoryState)
      (wk : ℕ) (z sq sd : ℚ),
      (solveMpcFallback N M hr sp oc prod st wk z sq sd).status ≠ "optimal") := by
  constructor
  · intro N M L cap maxOrd initInv d inv s orders hc
    exact hc.2.2.2.2.2.2.2.2.2
  · intro N M hr sp oc prod st wk z sq sd
    simp [solveMpcFallback]

/-- C6 witness: a concrete constraint-satisfying trajectory (constant demand
10/day, no orders, no stockouts) has all its capacity-constrained entries at
or below the warehouse capacity. -/
theorem C6_witness :
    ([100, 90, 80, 70, 60, 50, 40, 30] : List ℚ).getD 6 0 ≤ 100000 :=
  C6_theorem.1 7 3 2 100000 10000 100
    (predictDemand 0 [10, 10, 10, 10, 10, 10, 10] 7)
    [100, 90, 80, 70, 60, 50, 40, 30]
    [0, 0, 0, 0, 0, 0, 0]
    [0, 0, 0]
    (by
      rw [predictDemand_const10]
      refine ⟨by norm_num, by norm_num, by norm_num, by norm_num [List.getD], ?_, ?_, ?_, ?_, ?_, ?_⟩ <;>
        (intro t ht; interval_cases t <;> norm_num [codeOrderArrival, List.getD]))
    6 (by omega)

/-- C7 counterexample: the `Inventory` write boundary does not enforce
`available_stock = stock_level - reserved_stock`. Writing a row with
stock_level 50, reserved_stock 60 and the non-matching available_stock 999
stores 999 verbatim — nothing rejects or clamps it. -/
theorem C7_counterexample :
    (writeInventoryRow "SKU-1" 50 60 0 999).available_stock = 999 ∧
    (writeInventoryRow "SKU-1" 50 60 0 999).available_stock
      ≠ (writeInventoryRow "SKU-1" 50 60 0 999).stock_level
        - (writeInventoryRow "SKU-1" 50 60 0 999).reserved_stock :=
  ⟨rfl, by decide⟩

/-- C7 (amended): the in-memory `InventoryState` does derive
`available_stock = current_stock - reserved_stock` by construction (its
constructor accepts no independent value), but the persisted `Inventory` row
stores whatever `available_stock` the writer supplies, with no
write-boundary enforcement: consistency holds only by caller convention. -/
theorem C7_theorem (pid : String) (cur res intr : ℤ) (recent : List ℤ) (lead : ℕ)
    (pid2 : String) (s r i a : ℤ) :
    (mkInventoryState pid cur res intr recent lead).available_stock = cur - res ∧
    (writeInventoryRow pid2 s r i a).available_stock = a :=
  ⟨rfl, rfl⟩

/-- C8: running the strategic search twice on identical demand history,
economics and bounds yields a second-best objective value no worse than the
first, for ANY candidate sequences the surrogate/acquisition machinery (and
its random state) proposes in either run: the second call reads the
committed best parameters of the first call back as its initial guess
(hypothesis `h`), evaluates them first against the deterministic simulator,
and only ever improves on that value. -/
theorem C8_theorem (econ : EconConfig) (prod : Product) (demands : List ℤ)
    (b : ParamBounds) (init1 init2 : PolicyParams) (cands1 cands2 : List PolicyParams)
    (h : init2 = (optimizeRun (objectiveFunction econ prod demands) b init1 cands1).1) :
    (optimizeRun (objectiveFunction econ prod demands) b init2 cands2).2
      ≤ (optimizeRun (objectiveFunction econ prod demands) b init1 cands1).2 :=
  calc (optimizeRun (objectiveFunction econ prod demands) b init2 cands2).2
      ≤ objectiveFunction econ prod demands (clipToBounds b init2) :=
        optimizeRun_snd_le_init _ b init2 cands2
    _ = objectiveFunction econ prod demands
          (optimizeRun (objectiveFunction econ prod demands) b init1 cands1).1 := by
        rw [h, optimizeRun_fst_clipped]
    _ = (optimizeRun (objectiveFunction econ prod demands) b init1 cands1).2 :=
        (optimizeRun_snd_eq _ b init1 cands1).symm

/-- C8 witness: a concrete rerun, seeded with the first run's best
parameters, scores no worse than the first run. -/
theorem C8_witness :
    (optimizeRun (objectiveFunction simulationConfig ⟨"P1", 2, 3, 1, 100⟩ [5, 5, 5])
        ⟨0, 100, 0, 100, 1, 100⟩
        ((optimizeRun (objectiveFunction simulationConfig ⟨"P1", 2, 3, 1, 100⟩ [5, 5, 5])
          ⟨0, 100, 0, 100, 1, 100⟩ ⟨10, 10, 30⟩ [⟨0, 0, 1⟩]).1)
        []).2
      ≤ (optimizeRun (objectiveFunction simulationConfig ⟨"P1", 2, 3, 1, 100⟩ [5, 5, 5])
          ⟨0, 100, 0, 100, 1, 100⟩ ⟨10, 10, 30⟩ [⟨0, 0, 1⟩]).2 :=
  C8_theorem simulationConfig ⟨"P1", 2, 3, 1, 100⟩ [5, 5, 5]
    ⟨0, 100, 0, 100, 1, 100⟩ ⟨10, 10, 30⟩ _ [⟨0, 0, 1⟩] [] rfl

/-- C9: whenever cvxpy is unavailable the MPC result is the heuristic
fallback, whose status "heuristic_fallback" differs from "optimal", so
`make_replenishment_decision` returns None and creates no InventoryActions
row — even when the fallback computed a positive first-period order. -/
theorem C9_theorem (st : InventoryState) (prod : Product) (row : ParamsRow)
    (N M : ℕ) (hr sp oc : ℚ) (wk : ℕ) (z sq sd : ℚ) (solverResult : MPCResult)
    (ag : RLAgentState) (sv : List ℚ) (exploring : Bool) (ri : ℕ)
    (hpos : 0 < (solveMpcFallback N M hr sp oc prod st wk z sq sd).order_quantities.getD 0 0) :
    makeReplenishmentDecision false (some st) (some prod) (some row) N M hr sp oc wk
      z sq sd solverResult ag sv exploring ri = none := by
  have hst : (solveMpcFallback N M hr sp oc prod st wk z sq sd).status
      = "heuristic_fallback" := rfl
  simp [makeReplenishmentDecision, solveMpc, decideFromMpcResult, hst]

/-- C9 witness: from empty stock with a week of demand 10/day, the fallback
recommends a positive first-period order (100 units), yet the decision is
still None. -/
theorem C9_witness :
    makeReplenishmentDecision false
      (some (mkInventoryState "P1" 0 0 0 [10, 10, 10, 10, 10, 10, 10] 2))
      (some ⟨"P1", 5, 2, 1, 10000⟩) (some ⟨"P1", 20, 0, 100, true⟩)
      7 3 (1 / 4) 10 50 0 (33 / 20) (3 / 2) 0
      ⟨"optimal", [], [], [], [], 0, 0, ""⟩ ⟨false, [], [], []⟩ [] false 0 = none :=
  C9_theorem (mkInventoryState "P1" 0 0 0 [10, 10, 10, 10, 10, 10, 10] 2)
    ⟨"P1", 5, 2, 1, 10000⟩ ⟨"P1", 20, 0, 100, true⟩ 7 3 (1 / 4) 10 50 0 (33 / 20) (3 / 2) 0
    ⟨"optimal", [], [], [], [], 0, 0, ""⟩ ⟨false, [], [], []⟩ [] false 0
    (by
      rw [show mkInventoryState "P1" 0 0 0 [10, 10, 10, 10, 10, 10, 10] 2
          = ⟨"P1", 0, 0, 0, 0, [10, 10, 10, 10, 10, 10, 10], 2⟩ from rfl]
      norm_num [solveMpcFallback, predictDemand_const10, listMean, fallbackOrdersGo,
        List.getD])

theorem npArgmaxGo_replicate (c : ℚ) :
    ∀ (n i bi : ℕ), npArgmaxGo (List.replicate n c) i bi c = bi := by
  intro n
  induction n with
  | zero => intro i bi; rfl
  | succ m ih =>
    intro i bi
    simp only [List.replicate, npArgmaxGo, if_neg (lt_irrefl c)]
    exact ih (i + 1) bi

/-- C10: `RLAgent.get_q_value` ignores its action-index argument — any two
indices give the same Q-value — and therefore the greedy branch of
`select_action` (ties broken toward the first index by np.argmax) always
picks action index 0, whose multiplier 0 makes the final order quantity 0;
a positive order can then only come from the exploration branch. -/
theorem C10_theorem :
    (∀ (ag : RLAgentState) (s : List ℚ) (i j : ℕ), ag.getQValue s i = ag.getQValue s j) ∧
    (∀ (ag : RLAgentState) (s : List ℚ) (base : ℤ) (ri : ℕ),
      ag.selectAction s base false ri = (0, 0)) := by
  constructor
  · intro ag s i j
    rfl
  · intro ag s base ri
    have hconst : (List.range actionSpace.length).map (fun i => ag.getQValue s i)
        = List.replicate 5 (ag.getQValue s 0) := rfl
    have hmax : npArgmax (List.replicate 5 (ag.getQValue s 0)) = 0 :=
      npArgmaxGo_replicate (ag.getQValue s 0) 4 1 0
    simp only [RLAgentState.selectAction, Bool.false_eq_true, if_false, hconst, hmax]
    have hmult : actionSpace.getD 0 0 = 0 := rfl
    rw [hmult, mul_zero]
    simp [pyInt]

end StockGrip
